import Mathlib

/-!
Verification of `lnstacks.py` (class `MinusLnStack`): a tool that applies the
negative natural logarithm, frame by frame, to a 3D HDF5 image stack.

The shallow embedding below models:
  * Python's `str.rsplit('.', 1)` (`rsplit1`),
  * the HDF5 world as partial maps (`H5File`, `H5Group`, `H5Item`),
  * `copy_metadata` as an `Except`-valued computation whose try/except
    blocks are `tryE`,
  * `minus_ln_stack` as a function producing the ordered trace of
    observable file-system events (`Event`) together with the Python
    result (`Except` error, or the returned value),
  * `mrc_stack_minus_ln`, whose body in the source is `pass`.

`np.log` is modeled as an explicit function parameter `np_log`; the theorems
instantiate it with `Real.log`, the natural logarithm on the reals.
-/

/-- Python exceptions that the code under study can raise. -/
inductive PyError where
  | valueError (msg : String)
  | ioError
  | indexError
  | keyError (name : String)
  | notImplementedError
deriving DecidableEq

/-- Python's `s.rsplit('.', 1)`: split at the last occurrence of `'.'`,
returning `[stem, extension]`, or `[s]` when `s` has no `'.'`. -/
def rsplit1 (s : String) : List String :=
  let cs := s.data
  if cs.contains '.' then
    let tl := (cs.reverse.takeWhile (fun c => c != '.')).reverse
    [String.mk (cs.take (cs.length - tl.length - 1)), String.mk tl]
  else [s]

/-- `h5_stack_fn.rsplit('.', 1)[0]`: the input path with its final
`'.'`-delimited segment removed (the whole path when there is no `'.'`). -/
def pyStem (s : String) : String :=
  (rsplit1 s).headD ""

/-- A value stored in a metadata dataset (`.value` in h5py). -/
abbrev MetaVal := List ℝ

/-- An item of an HDF5 group: either a 3D image stack (with its stored
shape, source element type and per-index frame data) or a metadata dataset. -/
inductive H5Item where
  | stack3 (n_frames n_rows n_cols : Nat) (srcDtype : String)
      (data : Nat → List (List ℝ))
  | meta (v : MetaVal)

/-- An HDF5 group: named items. -/
structure H5Group where
  items : String → Option H5Item

/-- An HDF5 file: named groups. -/
structure H5File where
  groups : String → Option H5Group

/-- Reading `group[name].value` as a metadata value: succeeds exactly when
`name` is present and holds a metadata dataset. -/
def H5Group.metaOf (g : H5Group) : String → Option MetaVal :=
  fun name =>
    match g.items name with
    | some (H5Item.meta v) => some v
    | _ => none

/-- Reading a field from a group, h5py style: a missing key raises. -/
def readValue {α : Type} (g : String → Option α) (name : String) : Except PyError α :=
  match g name with
  | some v => Except.ok v
  | none => Except.error (PyError.keyError name)

/-- A Python `try: body except: handler`-block: any error raised by the body
is swallowed and the handler's value is returned instead. -/
def tryE {α : Type} (body : Except PyError α) (handler : α) : Except PyError α :=
  match body with
  | Except.error _ => Except.ok handler
  | Except.ok v => Except.ok v

/-- `MinusLnStack.copy_metadata`: three try/except blocks. The first copies
`rotation_angle`, the second `energy`; the third reads `x_pixel_size` and
`y_pixel_size` (both reads precede both writes) and copies the pair. The
result lists the datasets created in the destination group, in order. -/
def copy_metadata {α : Type} (g : String → Option α) :
    Except PyError (List (String × α)) :=
  match tryE (Except.map (fun v => [("rotation_angle", v)])
      (readValue g "rotation_angle")) [] with
  | Except.error e => Except.error e
  | Except.ok ws1 =>
    match tryE (Except.map (fun v => [("energy", v)])
        (readValue g "energy")) [] with
    | Except.error e => Except.error e
    | Except.ok ws2 =>
      match tryE (Except.bind (readValue g "x_pixel_size") (fun vx =>
          Except.map (fun vy => [("x_pixel_size", vx), ("y_pixel_size", vy)])
            (readValue g "y_pixel_size"))) [] with
      | Except.error e => Except.error e
      | Except.ok ws3 => Except.ok (ws1 ++ ws2 ++ ws3)

/-- The datasets `copy_metadata` creates, as a total function of the four
source fields: each of `rotation_angle` and `energy` when present, and the
pixel-size pair when both of its fields are present. -/
def cmWrites {α : Type} (g : String → Option α) : List (String × α) :=
  (match g "rotation_angle" with
   | some v => [("rotation_angle", v)]
   | none => []) ++
  (match g "energy" with
   | some v => [("energy", v)]
   | none => []) ++
  (match g "x_pixel_size", g "y_pixel_size" with
   | some vx, some vy => [("x_pixel_size", vx), ("y_pixel_size", vy)]
   | _, _ => [])

/-- The keys of an association list. -/
def keys {α : Type} (ws : List (String × α)) : List String :=
  ws.map Prod.fst

/-- Observable file-system events of one `minus_ln_stack` run, in program
order. -/
inductive Event where
  | openFile (path : String)
  | createFile (path : String)
  | createGroup (name : String)
  | metadataCopy (writes : List (String × MetaVal))
  | createDataset (name : String) (shape : Nat × Nat × Nat)
      (chunks : Nat × Nat × Nat) (dtype : String)
  | setAttr (dsname attr : String) (v : Nat)
  | writeFrame (idx : Nat) (frame : List (List ℝ))
  | closeSource
  | closeDest

/-- The outcome of one `minus_ln_stack` call: the events performed before
control left the function, and either the raised exception or the returned
value (the Python function has no `return` statement, hence returns `None`,
modeled as `Except.ok none`). -/
structure RunResult where
  events : List Event
  result : Except PyError (Option String)

/-- `-np.log` applied element-wise to one 2D frame. -/
def negLogFrame (np_log : ℝ → ℝ) (fr : List (List ℝ)) : List (List ℝ) :=
  fr.map (fun row => row.map (fun x => -np_log x))

/-- `MinusLnStack.minus_ln_stack(h5_stack_fn, tree, dataset)` over a
file system `fs` mapping paths to existing HDF5 files. Mirrors the source
line by line: the `None` check; `h5py.File(fn, "r")`; the output name
`rsplit('.', 1)[0] + '_ln.hdf5'` and the extension `rsplit('.', 1)[1]`
(an out-of-range index raises `IndexError`); `h5py.File(out, 'w')`;
group and dataset lookup (a missing key raises `KeyError`; a metadata
item as primary dataset makes `shape[1]` raise `IndexError`);
`create_group`; the extension-gated `copy_metadata`; `create_dataset`
with chunks `(1, n_rows, n_cols)` and dtype `'float32'`; the
`'Number of Frames'` attribute; the ascending frame loop writing
`-np.log(img)`; and the two `close()` calls reached only on success. -/
def minus_ln_stack (np_log : ℝ → ℝ) (fs : String → Option H5File)
    (h5_stack_fn : Option String) (tree : String) (dataset : String) :
    RunResult :=
  match h5_stack_fn with
  | none => ⟨[], Except.error (PyError.valueError "Input stack cannot be None")⟩
  | some fn =>
    match fs fn with
    | none => ⟨[Event.openFile fn], Except.error PyError.ioError⟩
    | some h5_handler =>
      match (rsplit1 fn)[1]? with
      | none => ⟨[Event.openFile fn], Except.error PyError.indexError⟩
      | some ext =>
        match h5_handler.groups tree with
        | none =>
            ⟨[Event.openFile fn, Event.createFile (pyStem fn ++ "_ln.hdf5")],
             Except.error (PyError.keyError tree)⟩
        | some h5_group =>
          match h5_group.items dataset with
          | none =>
              ⟨[Event.openFile fn, Event.createFile (pyStem fn ++ "_ln.hdf5")],
               Except.error (PyError.keyError dataset)⟩
          | some (H5Item.meta _) =>
              ⟨[Event.openFile fn, Event.createFile (pyStem fn ++ "_ln.hdf5")],
               Except.error PyError.indexError⟩
          | some (H5Item.stack3 n_frames n_rows n_cols _ data) =>
            match (if ext = "h5" ∨ ext = "hdf5"
                   then Except.map (fun ws => [Event.metadataCopy ws])
                     (copy_metadata (H5Group.metaOf h5_group))
                   else Except.ok []) with
            | Except.error e =>
                ⟨[Event.openFile fn, Event.createFile (pyStem fn ++ "_ln.hdf5"),
                  Event.createGroup tree],
                 Except.error e⟩
            | Except.ok mev =>
                ⟨[Event.openFile fn, Event.createFile (pyStem fn ++ "_ln.hdf5"),
                  Event.createGroup tree]
                   ++ mev
                   ++ [Event.createDataset dataset (n_frames, n_rows, n_cols)
                         (1, n_rows, n_cols) "float32",
                       Event.setAttr dataset "Number of Frames" n_frames]
                   ++ (List.range n_frames).map (fun i =>
                        Event.writeFrame i (negLogFrame np_log (data i)))
                   ++ [Event.closeSource, Event.closeDest],
                 Except.ok none⟩

/-- `MinusLnStack.mrc_stack_minus_ln(stack)`: the body is `pass`, so the
call performs nothing and returns `None` for every input. -/
def mrc_stack_minus_ln {α : Type} (stack : α) : Except PyError (Option String) :=
  Except.ok none

/-- The frame-write events of a trace, as `(index, frame)` pairs. -/
def writeOf : Event → Option (Nat × List (List ℝ))
  | Event.writeFrame i fr => some (i, fr)
  | _ => none

/-- A 2×2 frame whose every pixel equals 1.0. -/
def oneFrame : List (List ℝ) := [[1, 1], [1, 1]]

/-- A 1-frame 2×2 stack of ones, with a 64-bit source element type. -/
def sampleStack : H5Item := H5Item.stack3 1 2 2 "float64" (fun _ => oneFrame)

/-- A group holding the sample stack under the default dataset name. -/
def sampleGroup : H5Group :=
  ⟨fun n => if n = "TomoNormalized" then some sampleStack else none⟩

/-- A file holding the sample group under the default tree name. -/
def sampleFile : H5File :=
  ⟨fun n => if n = "TomoNormalized" then some sampleGroup else none⟩

/-- A file system with one valid stack named `scan.h5`. -/
def fsScan : String → Option H5File :=
  fun p => if p = "scan.h5" then some sampleFile else none

/-- A file system with one valid stack named `/data/run01.hdf5`. -/
def fsRun01 : String → Option H5File :=
  fun p => if p = "/data/run01.hdf5" then some sampleFile else none

/-- A file system with one valid stack named `scan.HDF5` (upper case). -/
def fsUpper : String → Option H5File :=
  fun p => if p = "scan.HDF5" then some sampleFile else none

/-- A file with no groups at all. -/
def emptyFile : H5File := ⟨fun _ => none⟩

/-- A file system where `bad.h5` exists but holds no groups. -/
def fsBad : String → Option H5File :=
  fun p => if p = "bad.h5" then some emptyFile else none

/-- A file system where the extension-less path `noext` exists. -/
def fsNoExt : String → Option H5File :=
  fun p => if p = "noext" then some emptyFile else none

/-- A metadata source with `rotation_angle` and both pixel sizes present and
`energy` absent. -/
def gEx : String → Option Nat := fun n =>
  if n = "rotation_angle" then some 7
  else if n = "x_pixel_size" then some 3
  else if n = "y_pixel_size" then some 4
  else none

theorem copy_metadata_eq {α : Type} (g : String → Option α) :
    copy_metadata g = Except.ok (cmWrites g) := by
  cases h1 : g "rotation_angle" <;> cases h2 : g "energy" <;>
    cases h3 : g "x_pixel_size" <;> cases h4 : g "y_pixel_size" <;>
    simp [copy_metadata, cmWrites, readValue, tryE, Except.map, Except.bind,
      h1, h2, h3, h4]

theorem minus_ln_stack_run (np_log : ℝ → ℝ) (fs : String → Option H5File)
    (fn tree dataset ext : String) (f : H5File) (g : H5Group)
    (nf nr nc : Nat) (sdt : String) (data : Nat → List (List ℝ))
    (hopen : fs fn = some f)
    (hext : (rsplit1 fn)[1]? = some ext)
    (hgrp : f.groups tree = some g)
    (hds : g.items dataset = some (H5Item.stack3 nf nr nc sdt data)) :
    minus_ln_stack np_log fs (some fn) tree dataset =
      ⟨[Event.openFile fn, Event.createFile (pyStem fn ++ "_ln.hdf5"),
        Event.createGroup tree]
         ++ (if ext = "h5" ∨ ext = "hdf5"
             then [Event.metadataCopy (cmWrites (H5Group.metaOf g))] else [])
         ++ [Event.createDataset dataset (nf, nr, nc) (1, nr, nc) "float32",
             Event.setAttr dataset "Number of Frames" nf]
         ++ (List.range nf).map (fun i =>
              Event.writeFrame i (negLogFrame np_log (data i)))
         ++ [Event.closeSource, Event.closeDest],
       Except.ok none⟩ := by
  by_cases hc : ext = "h5" ∨ ext = "hdf5" <;>
    simp [minus_ln_stack, hopen, hext, hgrp, hds, hc, copy_metadata_eq,
      Except.map]

theorem filterMap_writeOf_metaPart (c : Prop) [Decidable c]
    (ws : List (String × MetaVal)) :
    List.filterMap writeOf (if c then [Event.metadataCopy ws] else []) = [] := by
  split <;> simp [writeOf]

/-- C1: for a valid input stack of shape `(n_frames, n_rows, n_cols)`, the
frame-write events of a `minus_ln_stack` run are exactly
`writeFrame i (-log (input frame i))` for `i = 0 .. n_frames - 1`, in
strictly ascending index order, with `-Real.log` applied unconditionally to
every pixel (no clamping of non-positive inputs). -/
theorem frames_written_ascending_neg_log (fs : String → Option H5File)
    (fn tree dataset ext : String) (f : H5File) (g : H5Group)
    (nf nr nc : Nat) (sdt : String) (data : Nat → List (List ℝ))
    (hopen : fs fn = some f)
    (hext : (rsplit1 fn)[1]? = some ext)
    (hgrp : f.groups tree = some g)
    (hds : g.items dataset = some (H5Item.stack3 nf nr nc sdt data)) :
    (minus_ln_stack Real.log fs (some fn) tree dataset).events.filterMap writeOf
      = (List.range nf).map (fun i => (i, negLogFrame Real.log (data i))) ∧
    (((minus_ln_stack Real.log fs (some fn) tree
        dataset).events.filterMap writeOf).map Prod.fst).Pairwise (· < ·) := by
  rw [minus_ln_stack_run Real.log fs fn tree dataset ext f g nf nr nc sdt data
    hopen hext hgrp hds]
  have hm : List.filterMap
      (writeOf ∘ fun i => Event.writeFrame i (negLogFrame Real.log (data i)))
      (List.range nf)
      = (List.range nf).map (fun i => (i, negLogFrame Real.log (data i))) :=
    List.filterMap_eq_map_iff_forall_eq_some.mpr (fun a _ => rfl)
  constructor
  · simp [List.filterMap_append, filterMap_writeOf_metaPart, writeOf,
      List.filterMap_map, Function.comp]
    exact hm
  · simp [List.filterMap_append, filterMap_writeOf_metaPart, writeOf,
      List.filterMap_map, Function.comp]
    rw [hm, List.map_map]
    have hid : (Prod.fst ∘ fun i : Nat => (i, negLogFrame Real.log (data i)))
        = id := rfl
    rw [hid, List.map_id]
    exact List.pairwise_lt_range nf

/-- C2: the output primary dataset is created with exactly the input shape
`(n_frames, n_rows, n_cols)`, chunk shape `(1, n_rows, n_cols)`, element
type `float32` (whatever the source element type `sdt` is), and the
`'Number of Frames'` attribute is set to `n_frames`; moreover no dataset
with other parameters is ever created. -/
theorem output_dataset_shape_chunks_dtype_attr (fs : String → Option H5File)
    (fn tree dataset ext : String) (f : H5File) (g : H5Group)
    (nf nr nc : Nat) (sdt : String) (data : Nat → List (List ℝ))
    (hopen : fs fn = some f)
    (hext : (rsplit1 fn)[1]? = some ext)
    (hgrp : f.groups tree = some g)
    (hds : g.items dataset = some (H5Item.stack3 nf nr nc sdt data)) :
    Event.createDataset dataset (nf, nr, nc) (1, nr, nc) "float32"
        ∈ (minus_ln_stack Real.log fs (some fn) tree dataset).events ∧
    Event.setAttr dataset "Number of Frames" nf
        ∈ (minus_ln_stack Real.log fs (some fn) tree dataset).events ∧
    (∀ nm sh ch dt, Event.createDataset nm sh ch dt
        ∈ (minus_ln_stack Real.log fs (some fn) tree dataset).events →
      nm = dataset ∧ sh = (nf, nr, nc) ∧ ch = (1, nr, nc) ∧ dt = "float32") := by
  rw [minus_ln_stack_run Real.log fs fn tree dataset ext f g nf nr nc sdt data
    hopen hext hgrp hds]
  refine ⟨by simp, by simp, ?_⟩
  intro nm sh ch dt hmem
  by_cases hc : ext = "h5" ∨ ext = "hdf5" <;>
    simp [hc] at hmem <;>
    exact ⟨hmem.1, hmem.2.1, hmem.2.2.1, hmem.2.2.2⟩

/-- C5: on a valid input, the metadata-copy step runs if and only if the
extension extracted by `rsplit('.', 1)[1]` is exactly `"h5"` or `"hdf5"`
(case-sensitive); when it runs it precedes the creation of the output
dataset; and either way the conversion completes without error. -/
theorem metadata_copy_gated_by_ext (fs : String → Option H5File)
    (fn tree dataset ext : String) (f : H5File) (g : H5Group)
    (nf nr nc : Nat) (sdt : String) (data : Nat → List (List ℝ))
    (hopen : fs fn = some f)
    (hext : (rsplit1 fn)[1]? = some ext)
    (hgrp : f.groups tree = some g)
    (hds : g.items dataset = some (H5Item.stack3 nf nr nc sdt data)) :
    ((ext = "h5" ∨ ext = "hdf5") →
      ∃ pre post,
        (minus_ln_stack Real.log fs (some fn) tree dataset).events =
          pre ++ Event.metadataCopy (cmWrites (H5Group.metaOf g)) :: post ∧
        Event.createDataset dataset (nf, nr, nc) (1, nr, nc) "float32" ∈ post) ∧
    (¬(ext = "h5" ∨ ext = "hdf5") →
      ∀ ws, Event.metadataCopy ws ∉
        (minus_ln_stack Real.log fs (some fn) tree dataset).events) ∧
    (minus_ln_stack Real.log fs (some fn) tree dataset).result =
      Except.ok none := by
  rw [minus_ln_stack_run Real.log fs fn tree dataset ext f g nf nr nc sdt data
    hopen hext hgrp hds]
  refine ⟨?_, ?_, rfl⟩
  · intro hc
    refine ⟨[Event.openFile fn, Event.createFile (pyStem fn ++ "_ln.hdf5"),
      Event.createGroup tree],
      [Event.createDataset dataset (nf, nr, nc) (1, nr, nc) "float32",
       Event.setAttr dataset "Number of Frames" nf]
        ++ (List.range nf).map (fun i =>
             Event.writeFrame i (negLogFrame Real.log (data i)))
        ++ [Event.closeSource, Event.closeDest], ?_, by simp⟩
    simp [hc]
  · intro hc ws
    simp [hc]

/-- C8 (amended): on a run that reaches the frame loop and completes, both
container handles are closed, as the last two events; the error paths do not
close them (see the counterexample). -/
theorem handles_closed_on_success (fs : String → Option H5File)
    (fn tree dataset ext : String) (f : H5File) (g : H5Group)
    (nf nr nc : Nat) (sdt : String) (data : Nat → List (List ℝ))
    (hopen : fs fn = some f)
    (hext : (rsplit1 fn)[1]? = some ext)
    (hgrp : f.groups tree = some g)
    (hds : g.items dataset = some (H5Item.stack3 nf nr nc sdt data)) :
    ∃ pre,
      (minus_ln_stack Real.log fs (some fn) tree dataset).events =
        pre ++ [Event.closeSource, Event.closeDest] ∧
      (minus_ln_stack Real.log fs (some fn) tree dataset).result =
        Except.ok none := by
  rw [minus_ln_stack_run Real.log fs fn tree dataset ext f g nf nr nc sdt data
    hopen hext hgrp hds]
  refine ⟨[Event.openFile fn, Event.createFile (pyStem fn ++ "_ln.hdf5"),
    Event.createGroup tree]
      ++ (if ext = "h5" ∨ ext = "hdf5"
          then [Event.metadataCopy (cmWrites (H5Group.metaOf g))] else [])
      ++ [Event.createDataset dataset (nf, nr, nc) (1, nr, nc) "float32",
          Event.setAttr dataset "Number of Frames" nf]
      ++ (List.range nf).map (fun i =>
           Event.writeFrame i (negLogFrame Real.log (data i))), ?_, rfl⟩
  simp

/-- C8 counterexample: when the source file exists but lacks the tree group,
the run aborts with a `KeyError` after opening the source and creating the
destination, and neither handle is closed before control leaves the call. -/
theorem error_path_leaves_handles_open_cx :
    minus_ln_stack Real.log fsBad (some "bad.h5") "TomoNormalized"
        "TomoNormalized" =
      ⟨[Event.openFile "bad.h5", Event.createFile "bad_ln.hdf5"],
       Except.error (PyError.keyError "TomoNormalized")⟩ ∧
    Event.closeSource ∉
      (minus_ln_stack Real.log fsBad (some "bad.h5") "TomoNormalized"
        "TomoNormalized").events ∧
    Event.closeDest ∉
      (minus_ln_stack Real.log fsBad (some "bad.h5") "TomoNormalized"
        "TomoNormalized").events := by
  have h : minus_ln_stack Real.log fsBad (some "bad.h5") "TomoNormalized"
      "TomoNormalized" =
      ⟨[Event.openFile "bad.h5", Event.createFile "bad_ln.hdf5"],
       Except.error (PyError.keyError "TomoNormalized")⟩ := rfl
  refine ⟨h, ?_, ?_⟩ <;> rw [h] <;> simp

/-- C10: for an existing input path with no `'.'` character, the run raises
`IndexError` at `rsplit('.', 1)[1]`: the trace is exactly the source-open
event, so the source was opened (and never closed) and no destination file
was created. -/
theorem missing_dot_index_error (np_log : ℝ → ℝ) (fs : String → Option H5File)
    (fn tree dataset : String) (f : H5File)
    (hopen : fs fn = some f)
    (hnodot : fn.data.contains '.' = false) :
    minus_ln_stack np_log fs (some fn) tree dataset =
      ⟨[Event.openFile fn], Except.error PyError.indexError⟩ := by
  have h0 : ¬ '.' ∈ fn.data := by simpa using hnodot
  have h1 : rsplit1 fn = [fn] := by
    simp [rsplit1, h0]
  simp [minus_ln_stack, hopen, h1]

/-- C3 (amended): for every existing input path whose name contains a `'.'`,
the destination container is created at the path obtained by stripping the
final `'.'`-delimited segment and appending `_ln.hdf5`; the function itself
returns `None` (not the output path) whenever it returns at all. -/
theorem output_created_at_derived_path (np_log : ℝ → ℝ)
    (fs : String → Option H5File) (fn tree dataset ext : String) (f : H5File)
    (hopen : fs fn = some f)
    (hext : (rsplit1 fn)[1]? = some ext) :
    Event.createFile (pyStem fn ++ "_ln.hdf5")
        ∈ (minus_ln_stack np_log fs (some fn) tree dataset).events ∧
    ∀ r, (minus_ln_stack np_log fs (some fn) tree dataset).result =
        Except.ok r → r = none := by
  cases hg : f.groups tree with
  | none => simp [minus_ln_stack, hopen, hext, hg]
  | some g =>
    cases hi : g.items dataset with
    | none => simp [minus_ln_stack, hopen, hext, hg, hi]
    | some item =>
      cases item with
      | meta v => simp [minus_ln_stack, hopen, hext, hg, hi]
      | stack3 nf nr nc sdt data =>
        by_cases hc : ext = "h5" ∨ ext = "hdf5" <;>
          simp [minus_ln_stack, hopen, hext, hg, hi, hc, copy_metadata_eq,
            Except.map]

/-- C3 counterexample: a successful conversion of `/data/run01.hdf5` returns
`None`, not the output path `/data/run01_ln.hdf5` that the claim says is
returned to the caller. -/
theorem return_value_is_none_cx :
    (minus_ln_stack Real.log fsRun01 (some "/data/run01.hdf5")
        "TomoNormalized" "TomoNormalized").result = Except.ok none ∧
    (minus_ln_stack Real.log fsRun01 (some "/data/run01.hdf5")
        "TomoNormalized" "TomoNormalized").result ≠
      Except.ok (some "/data/run01_ln.hdf5") := by
  have hres : (minus_ln_stack Real.log fsRun01 (some "/data/run01.hdf5")
      "TomoNormalized" "TomoNormalized").result = Except.ok none := rfl
  exact ⟨hres, by rw [hres]; simp⟩

/-- C4 (amended): for an absent (`None`) input, `minus_ln_stack` raises
`ValueError` (the `InvalidArgument` of the spec) with an empty event trace:
no I/O is performed. The empty string is not covered by the check (see the
counterexample). -/
theorem none_input_valueerror_no_io (np_log : ℝ → ℝ)
    (fs : String → Option H5File) (tree dataset : String) :
    minus_ln_stack np_log fs none tree dataset =
      ⟨[], Except.error (PyError.valueError "Input stack cannot be None")⟩ :=
  rfl

/-- C4 counterexample: the empty-string input is not rejected by the `None`
check: the source open is attempted (a file-system access) and the run fails
with an I/O error, not with `ValueError`. -/
theorem empty_path_attempts_open_cx :
    minus_ln_stack Real.log (fun _ => none) (some "") "TomoNormalized"
        "TomoNormalized" =
      ⟨[Event.openFile ""], Except.error PyError.ioError⟩ ∧
    ∀ msg, Except.error PyError.ioError ≠
      (Except.error (PyError.valueError msg) :
        Except PyError (Option String)) := by
  exact ⟨rfl, fun msg => by simp⟩

/-- C9 (amended): `mrc_stack_minus_ln` is a stub whose body is `pass`: for
every input it performs no conversion and returns `None`; it does not raise
`NotImplemented` (nor anything else). -/
theorem mrc_stub_no_conversion {α : Type} (stack : α) :
    mrc_stack_minus_ln stack = Except.ok none :=
  rfl

/-- C9 counterexample: invoked on a concrete input, the alternate-format
transform returns `None` successfully instead of failing with
`NotImplemented`. -/
theorem mrc_stub_returns_ok_cx :
    mrc_stack_minus_ln (0 : Nat) = Except.ok none ∧
    mrc_stack_minus_ln (0 : Nat) ≠ Except.error PyError.notImplementedError := by
  exact ⟨rfl, by simp [mrc_stack_minus_ln]⟩

/-- C6: the pixel sizes form an atomic pair: `x_pixel_size` and
`y_pixel_size` both appear among the datasets `copy_metadata` creates if and
only if both reads from the source succeed, and never does exactly one of
the two appear. -/
theorem pixel_sizes_atomic_pair {α : Type} (g : String → Option α)
    (ws : List (String × α)) (h : copy_metadata g = Except.ok ws) :
    (("x_pixel_size" ∈ keys ws ∧ "y_pixel_size" ∈ keys ws) ↔
      ((g "x_pixel_size").isSome ∧ (g "y_pixel_size").isSome)) ∧
    ("x_pixel_size" ∈ keys ws ↔ "y_pixel_size" ∈ keys ws) := by
  rw [copy_metadata_eq] at h
  have hws := Except.ok.inj h
  subst hws
  cases h1 : g "rotation_angle" <;> cases h2 : g "energy" <;>
    cases h3 : g "x_pixel_size" <;> cases h4 : g "y_pixel_size" <;>
    simp [cmWrites, keys, h1, h2, h3, h4]

/-- C7: `copy_metadata` never raises, for any source contents; each of
`rotation_angle` and `energy` is copied exactly when its read succeeds,
independently of the other fields; when `energy` is absent no `energy`
dataset is produced while every other present field is still copied. -/
theorem copy_metadata_never_raises {α : Type} (g : String → Option α) :
    ∃ ws, copy_metadata g = Except.ok ws ∧
      (∀ v, g "rotation_angle" = some v → ("rotation_angle", v) ∈ ws) ∧
      (∀ v, g "energy" = some v → ("energy", v) ∈ ws) ∧
      (g "energy" = none → "energy" ∉ keys ws) ∧
      (∀ vx vy, g "x_pixel_size" = some vx → g "y_pixel_size" = some vy →
        ("x_pixel_size", vx) ∈ ws ∧ ("y_pixel_size", vy) ∈ ws) := by
  refine ⟨cmWrites g, copy_metadata_eq g, ?_, ?_, ?_, ?_⟩
  · intro v hv
    simp [cmWrites, hv]
  · intro v hv
    simp [cmWrites, hv]
  · intro hv
    cases h1 : g "rotation_angle" <;> cases h3 : g "x_pixel_size" <;>
      cases h4 : g "y_pixel_size" <;>
      simp [cmWrites, keys, hv, h1, h3, h4]
  · intro vx vy hx hy
    simp [cmWrites, hx, hy]

theorem frames_written_ascending_neg_log_w :
    fsScan "scan.h5" = some sampleFile ∧
    (rsplit1 "scan.h5")[1]? = some "h5" ∧
    sampleFile.groups "TomoNormalized" = some sampleGroup ∧
    sampleGroup.items "TomoNormalized" =
      some (H5Item.stack3 1 2 2 "float64" (fun _ => oneFrame)) ∧
    (minus_ln_stack Real.log fsScan (some "scan.h5") "TomoNormalized"
        "TomoNormalized").events.filterMap writeOf
      = (List.range 1).map (fun i => (i, negLogFrame Real.log oneFrame)) ∧
    negLogFrame Real.log oneFrame = [[0, 0], [0, 0]] := by
  refine ⟨rfl, by decide, rfl, rfl, ?_, ?_⟩
  · exact (frames_written_ascending_neg_log fsScan "scan.h5" "TomoNormalized"
      "TomoNormalized" "h5" sampleFile sampleGroup 1 2 2 "float64"
      (fun _ => oneFrame) rfl (by decide) rfl rfl).1
  · simp [negLogFrame, oneFrame, Real.log_one]

theorem output_dataset_shape_chunks_dtype_attr_w :
    fsScan "scan.h5" = some sampleFile ∧
    (rsplit1 "scan.h5")[1]? = some "h5" ∧
    sampleFile.groups "TomoNormalized" = some sampleGroup ∧
    sampleGroup.items "TomoNormalized" =
      some (H5Item.stack3 1 2 2 "float64" (fun _ => oneFrame)) ∧
    Event.createDataset "TomoNormalized" (1, 2, 2) (1, 2, 2) "float32"
        ∈ (minus_ln_stack Real.log fsScan (some "scan.h5") "TomoNormalized"
            "TomoNormalized").events ∧
    Event.setAttr "TomoNormalized" "Number of Frames" 1
        ∈ (minus_ln_stack Real.log fsScan (some "scan.h5") "TomoNormalized"
            "TomoNormalized").events := by
  refine ⟨rfl, by decide, rfl, rfl, ?_, ?_⟩
  · exact (output_dataset_shape_chunks_dtype_attr fsScan "scan.h5"
      "TomoNormalized" "TomoNormalized" "h5" sampleFile sampleGroup 1 2 2
      "float64" (fun _ => oneFrame) rfl (by decide) rfl rfl).1
  · exact (output_dataset_shape_chunks_dtype_attr fsScan "scan.h5"
      "TomoNormalized" "TomoNormalized" "h5" sampleFile sampleGroup 1 2 2
      "float64" (fun _ => oneFrame) rfl (by decide) rfl rfl).2.1

theorem output_created_at_derived_path_w :
    fsRun01 "/data/run01.hdf5" = some sampleFile ∧
    (rsplit1 "/data/run01.hdf5")[1]? = some "hdf5" ∧
    pyStem "/data/run01.hdf5" ++ "_ln.hdf5" = "/data/run01_ln.hdf5" ∧
    pyStem "scan.h5" ++ "_ln.hdf5" = "scan_ln.hdf5" ∧
    Event.createFile "/data/run01_ln.hdf5"
        ∈ (minus_ln_stack Real.log fsRun01 (some "/data/run01.hdf5")
            "TomoNormalized" "TomoNormalized").events := by
  have hname : pyStem "/data/run01.hdf5" ++ "_ln.hdf5" = "/data/run01_ln.hdf5" := by
    decide
  refine ⟨rfl, by decide, hname, by decide, ?_⟩
  have h := (output_created_at_derived_path Real.log fsRun01 "/data/run01.hdf5"
    "TomoNormalized" "TomoNormalized" "hdf5" sampleFile rfl (by decide)).1
  rwa [hname] at h

theorem none_input_valueerror_no_io_w :
    minus_ln_stack Real.log (fun _ => none) none "TomoNormalized"
        "TomoNormalized" =
      ⟨[], Except.error (PyError.valueError "Input stack cannot be None")⟩ :=
  none_input_valueerror_no_io Real.log (fun _ => none) "TomoNormalized"
    "TomoNormalized"

theorem metadata_copy_gated_by_ext_w :
    fsScan "scan.h5" = some sampleFile ∧
    (rsplit1 "scan.h5")[1]? = some "h5" ∧
    ("h5" = "h5" ∨ "h5" = "hdf5") ∧
    (∃ pre post,
      (minus_ln_stack Real.log fsScan (some "scan.h5") "TomoNormalized"
          "TomoNormalized").events =
        pre ++ Event.metadataCopy (cmWrites (H5Group.metaOf sampleGroup))
          :: post ∧
      Event.createDataset "TomoNormalized" (1, 2, 2) (1, 2, 2) "float32"
        ∈ post) ∧
    (rsplit1 "scan.HDF5")[1]? = some "HDF5" ∧
    ¬("HDF5" = "h5" ∨ "HDF5" = "hdf5") ∧
    (∀ ws, Event.metadataCopy ws ∉
      (minus_ln_stack Real.log fsUpper (some "scan.HDF5") "TomoNormalized"
          "TomoNormalized").events) ∧
    (minus_ln_stack Real.log fsUpper (some "scan.HDF5") "TomoNormalized"
        "TomoNormalized").result = Except.ok none := by
  refine ⟨rfl, by decide, Or.inl rfl, ?_, by decide, by decide, ?_, ?_⟩
  · exact (metadata_copy_gated_by_ext fsScan "scan.h5" "TomoNormalized"
      "TomoNormalized" "h5" sampleFile sampleGroup 1 2 2 "float64"
      (fun _ => oneFrame) rfl (by decide) rfl rfl).1 (Or.inl rfl)
  · exact (metadata_copy_gated_by_ext fsUpper "scan.HDF5" "TomoNormalized"
      "TomoNormalized" "HDF5" sampleFile sampleGroup 1 2 2 "float64"
      (fun _ => oneFrame) rfl (by decide) rfl rfl).2.1 (by decide)
  · exact (metadata_copy_gated_by_ext fsUpper "scan.HDF5" "TomoNormalized"
      "TomoNormalized" "HDF5" sampleFile sampleGroup 1 2 2 "float64"
      (fun _ => oneFrame) rfl (by decide) rfl rfl).2.2

theorem pixel_sizes_atomic_pair_w :
    copy_metadata gEx =
      Except.ok
        [("rotation_angle", 7), ("x_pixel_size", 3), ("y_pixel_size", 4)] ∧
    ((("x_pixel_size" ∈ keys
          [("rotation_angle", 7), ("x_pixel_size", 3), ("y_pixel_size", 4)] ∧
       "y_pixel_size" ∈ keys
          [("rotation_angle", 7), ("x_pixel_size", 3), ("y_pixel_size", 4)]) ↔
      ((gEx "x_pixel_size").isSome ∧ (gEx "y_pixel_size").isSome)) ∧
     ("x_pixel_size" ∈ keys
          [("rotation_angle", 7), ("x_pixel_size", 3), ("y_pixel_size", 4)] ↔
      "y_pixel_size" ∈ keys
          [("rotation_angle", 7), ("x_pixel_size", 3), ("y_pixel_size", 4)])) := by
  have h : copy_metadata gEx =
      Except.ok
        [("rotation_angle", 7), ("x_pixel_size", 3), ("y_pixel_size", 4)] := rfl
  exact ⟨h, pixel_sizes_atomic_pair gEx _ h⟩

theorem copy_metadata_never_raises_w :
    ∃ ws, copy_metadata gEx = Except.ok ws ∧
      (∀ v, gEx "rotation_angle" = some v → ("rotation_angle", v) ∈ ws) ∧
      (∀ v, gEx "energy" = some v → ("energy", v) ∈ ws) ∧
      (gEx "energy" = none → "energy" ∉ keys ws) ∧
      (∀ vx vy, gEx "x_pixel_size" = some vx → gEx "y_pixel_size" = some vy →
        ("x_pixel_size", vx) ∈ ws ∧ ("y_pixel_size", vy) ∈ ws) :=
  copy_metadata_never_raises gEx

theorem handles_closed_on_success_w :
    fsScan "scan.h5" = some sampleFile ∧
    ∃ pre,
      (minus_ln_stack Real.log fsScan (some "scan.h5") "TomoNormalized"
          "TomoNormalized").events = pre ++ [Event.closeSource, Event.closeDest] ∧
      (minus_ln_stack Real.log fsScan (some "scan.h5") "TomoNormalized"
          "TomoNormalized").result = Except.ok none :=
  ⟨rfl, handles_closed_on_success fsScan "scan.h5" "TomoNormalized"
    "TomoNormalized" "h5" sampleFile sampleGroup 1 2 2 "float64"
    (fun _ => oneFrame) rfl (by decide) rfl rfl⟩

theorem mrc_stub_no_conversion_w :
    mrc_stack_minus_ln (42 : Nat) = Except.ok none :=
  mrc_stub_no_conversion 42

theorem missing_dot_index_error_w :
    fsNoExt "noext" = some emptyFile ∧
    "noext".data.contains '.' = false ∧
    minus_ln_stack Real.log fsNoExt (some "noext") "TomoNormalized"
        "TomoNormalized" =
      ⟨[Event.openFile "noext"], Except.error PyError.indexError⟩ :=
  ⟨rfl, by decide,
    missing_dot_index_error Real.log fsNoExt "noext" "TomoNormalized"
      "TomoNormalized" emptyFile rfl (by decide)⟩
